import Mathlib

/-!
Verification of the alphastream signal-derivation pipeline.

Shallow embedding of the core modules:
* `pipeline/alpha/composite_signal.py` (and the other alpha metric modules)
* `pipeline/ml/ticker_resolver.py`
* `pipeline/utils/deduplication.py`
* `pipeline/llm/rate_limiter.py`
* the ensemble portion of `pipeline/tasks/sentiment_analysis.py` together with
  `pipeline/llm/gemini_client.py` / `openrouter_client.py`
* the stock-alpha portion of `pipeline/tasks/alpha_metrics.py`

Python floats are embedded as rationals (ℚ); every numeric constant in these
modules is an exact decimal literal, so the arithmetic structure is preserved
exactly. Python dicts keyed by strings are embedded as association lists with
the Python insertion-order/overwrite semantics (`dictInsert`).
-/

set_option maxRecDepth 100000

namespace AlphaStream

/-! ### `pipeline/alpha/composite_signal.py` -/

def STRONG_BUY_THRESHOLD : ℚ := 5/10
def BUY_THRESHOLD : ℚ := 2/10
def SELL_THRESHOLD : ℚ := -(2/10)
def STRONG_SELL_THRESHOLD : ℚ := -(5/10)

structure CompositeResult where
  composite_score : ℚ
  signal : String
  conviction : ℚ
deriving DecidableEq, Repr

/-- Embedding of `compute_composite` from `composite_signal.py`:
weighted combination, threshold chain, conviction = min(|score|, 1). -/
def compute_composite (expectation_gap narrative_velocity divergence : ℚ) :
    CompositeResult :=
  let composite_score :=
    45/100 * expectation_gap + 30/100 * narrative_velocity + 25/100 * divergence
  { composite_score := composite_score
    signal :=
      if composite_score > STRONG_BUY_THRESHOLD then "strong_buy"
      else if composite_score > BUY_THRESHOLD then "buy"
      else if composite_score > SELL_THRESHOLD then "hold"
      else if composite_score > STRONG_SELL_THRESHOLD then "sell"
      else "strong_sell"
    conviction := min |composite_score| 1 }

/-! ### `pipeline/ml/ticker_resolver.py`

`str.lower` for the ASCII strings of the alias table is `Char.toLower` on each
character; the Python `in` on strings is list-infix on the character lists.
A Python dict is an association list built with insertion-order semantics:
inserting an existing key updates it in place, a new key is appended. -/

/-- Python `str.lower()` (ASCII range, which covers the whole alias table). -/
def pyLower (s : String) : String := ⟨s.data.map Char.toLower⟩

/-- Chained character equality along two lists: Python `hay.startswith(n)`. -/
def isPrefixB : List Char → List Char → Bool
  | [], _ => true
  | _ :: _, [] => false
  | a :: as, b :: bs => a == b && isPrefixB as bs

/-- Python `n in hay` for strings, on the underlying character lists. -/
def isInfixB : List Char → List Char → Bool
  | n, [] => n.isEmpty
  | n, c :: t => isPrefixB n (c :: t) || isInfixB n t

/-- Python dict insertion `d[k] = v`: update the first occurrence of the key in
place (keeping its position in iteration order), else append at the end. -/
def dictInsert : List (String × String) → String → String → List (String × String)
  | [], k, v => [(k, v)]
  | (k0, v0) :: rest, k, v =>
    if k0 == k then (k0, v) :: rest else (k0, v0) :: dictInsert rest k v

/-- The `TICKER_ALIASES` table of `ticker_resolver.py`, in source order. -/
def TICKER_ALIASES : List (String × List String) :=
  [("RELIANCE", ["Reliance", "RIL", "Reliance Industries"]),
   ("TCS", ["TCS", "Tata Consultancy", "Tata Consultancy Services"]),
   ("INFY", ["Infosys", "Infy"]),
   ("HDFCBANK", ["HDFC Bank", "HDFC"]),
   ("ICICIBANK", ["ICICI Bank", "ICICI"]),
   ("HINDUNILVR", ["Hindustan Unilever", "HUL"]),
   ("ITC", ["ITC", "ITC Limited"]),
   ("SBIN", ["SBI", "State Bank of India", "State Bank"]),
   ("BHARTIARTL", ["Bharti Airtel", "Airtel"]),
   ("KOTAKBANK", ["Kotak Mahindra Bank", "Kotak Bank", "Kotak"]),
   ("LT", ["Larsen & Toubro", "L&T", "Larsen and Toubro"]),
   ("AXISBANK", ["Axis Bank", "Axis"]),
   ("ASIANPAINT", ["Asian Paints", "Asian Paint"]),
   ("MARUTI", ["Maruti Suzuki", "Maruti"]),
   ("HCLTECH", ["HCL Technologies", "HCL Tech", "HCL"]),
   ("SUNPHARMA", ["Sun Pharma", "Sun Pharmaceutical"]),
   ("TATAMOTORS", ["Tata Motors", "Tata Motor"]),
   ("BAJFINANCE", ["Bajaj Finance", "Bajaj Fin"]),
   ("WIPRO", ["Wipro"]),
   ("ULTRACEMCO", ["UltraTech Cement", "UltraTech"]),
   ("ONGC", ["ONGC", "Oil and Natural Gas"]),
   ("NTPC", ["NTPC"]),
   ("POWERGRID", ["Power Grid", "Power Grid Corporation"]),
   ("TITAN", ["Titan", "Titan Company"]),
   ("ADANIENT", ["Adani Enterprises", "Adani"]),
   ("ADANIPORTS", ["Adani Ports", "Adani Ports and SEZ"]),
   ("TECHM", ["Tech Mahindra", "TechM"]),
   ("TATASTEEL", ["Tata Steel"]),
   ("NESTLEIND", ["Nestle India", "Nestle"]),
   ("BAJAJFINSV", ["Bajaj Finserv"]),
   ("JSWSTEEL", ["JSW Steel", "JSW"]),
   ("INDUSINDBK", ["IndusInd Bank", "IndusInd"]),
   ("DIVISLAB", ["Divi\x27s Laboratories", "Divi\x27s Lab", "Divis Lab"]),
   ("GRASIM", ["Grasim", "Grasim Industries"]),
   ("DRREDDY", ["Dr. Reddy\x27s", "Dr Reddy", "Dr. Reddy\x27s Laboratories"]),
   ("CIPLA", ["Cipla"]),
   ("EICHERMOT", ["Eicher Motors", "Royal Enfield"]),
   ("APOLLOHOSP", ["Apollo Hospitals", "Apollo"]),
   ("COALINDIA", ["Coal India", "CIL"]),
   ("BPCL", ["BPCL", "Bharat Petroleum"]),
   ("HEROMOTOCO", ["Hero MotoCorp", "Hero"]),
   ("BRITANNIA", ["Britannia", "Britannia Industries"]),
   ("HINDALCO", ["Hindalco", "Hindalco Industries"]),
   ("SBILIFE", ["SBI Life", "SBI Life Insurance"]),
   ("BAJAJ-AUTO", ["Bajaj Auto"]),
   ("TATACONSUM", ["Tata Consumer", "Tata Consumer Products"]),
   ("M&M", ["Mahindra & Mahindra", "M&M", "Mahindra"]),
   ("HDFCLIFE", ["HDFC Life", "HDFC Life Insurance"]),
   ("SHREECEM", ["Shree Cement"]),
   ("VEDL", ["Vedanta", "Vedanta Limited"]),
   ("BANKBARODA", ["Bank of Baroda", "BoB"]),
   ("PNB", ["Punjab National Bank", "PNB"]),
   ("ZOMATO", ["Zomato"]),
   ("PAYTM", ["Paytm", "One97 Communications"]),
   ("NYKAA", ["Nykaa", "FSN E-Commerce"])]

/-- Embedding of `TickerResolver.__init__`: the reverse map `alias.lower() -> ticker`,
built by iterating the alias table in source order. -/
def alias_to_ticker : List (String × String) :=
  TICKER_ALIASES.foldl
    (fun m p => p.2.foldl (fun m a => dictInsert m (pyLower a) p.1) m) []

/-- The partial-match loop of `TickerResolver.resolve`: first pair of the map
(in dict iteration order) where the alias is contained in the entity or the
entity is contained in the alias. -/
def findSubstrMatch : List (String × String) → String → Option String
  | [], _ => none
  | (a, t) :: rest, el =>
    if isInfixB a.data el.data || isInfixB el.data a.data then some t
    else findSubstrMatch rest el

/-- Embedding of `TickerResolver.resolve`: direct case-insensitive lookup,
then the substring scan, else `None`. -/
def resolve (entity : String) : Option String :=
  match alias_to_ticker.lookup (pyLower entity) with
  | some ticker => some ticker
  | none => findSubstrMatch alias_to_ticker (pyLower entity)

/-- Embedding of `TickerResolver.resolve_all`: one `{entity, ticker}` record
per input, in input order. -/
def resolve_all (entities : List String) : List (String × Option String) :=
  entities.map (fun e => (e, resolve e))

/-! ### `pipeline/utils/deduplication.py` -/

/-- The ASCII whitespace characters removed by Python `str.strip()`. -/
def pyIsSpace (c : Char) : Bool :=
  c.toNat == 32 || c.toNat == 9 || c.toNat == 10 || c.toNat == 13 ||
    c.toNat == 11 || c.toNat == 12

/-- Python `str.strip()` on the character list: drop whitespace at both ends. -/
def stripData (l : List Char) : List Char :=
  List.rdropWhile pyIsSpace (l.dropWhile pyIsSpace)

/-- Python `str.strip()`. -/
def pyStrip (s : String) : String := ⟨stripData s.data⟩

/-- Embedding of `compute_content_hash`: hash of `text.strip().lower()`. The
MD5-and-hex-digest step over the UTF-8 bytes is the external `hashlib`
library, kept abstract as the function argument `md5hex`. -/
def compute_content_hash (md5hex : String → String) (text : String) : String :=
  md5hex (pyLower (pyStrip text))

/-! ### `pipeline/llm/rate_limiter.py`

Both classes guard their bodies with a mutex, so each method body is one
atomic transition on the state. Clock readings (`time.monotonic`, in seconds)
are passed in explicitly; the guarantee that `time.sleep(d)` suspends for at
least `d` seconds of monotonic time appears as a hypothesis relating the
entry reading and the post-sleep reading. -/

/-- Mutable state of a `RateLimiter`: the inter-request interval
(`60 / max_requests_per_minute`) and the last recorded request time. -/
structure RateLimiterState where
  interval : ℚ
  last_request_time : ℚ
deriving DecidableEq, Repr

/-- Embedding of `RateLimiter.__init__(max_requests_per_minute)`. -/
def RateLimiter.init (max_requests_per_minute : ℚ) : RateLimiterState :=
  { interval := 60 / max_requests_per_minute, last_request_time := 0 }

/-- The duration `RateLimiter.wait` passes to `time.sleep` when it reads the
clock as `t1`: the unelapsed remainder of the interval, or nothing. -/
def waitSleep (s : RateLimiterState) (t1 : ℚ) : ℚ :=
  if t1 - s.last_request_time < s.interval then
    s.interval - (t1 - s.last_request_time)
  else 0

/-- Embedding of `RateLimiter.wait` as an atomic state transition: after the optional
sleep the clock is re-read as `t2` and recorded. -/
def RateLimiter.wait (s : RateLimiterState) (t2 : ℚ) : RateLimiterState :=
  { s with last_request_time := t2 }

/-- Mutable state of a `KeyRotator`: fixed key pool, failed set (only
membership matters; kept as a duplicate-free list), rotation index. -/
structure KeyRotatorState where
  keys : List String
  failed_keys : List String
  index : Nat
deriving DecidableEq, Repr

/-- Embedding of `KeyRotator.__init__(keys)`. -/
def KeyRotator.init (keys : List String) : KeyRotatorState :=
  { keys := keys, failed_keys := [], index := 0 }

/-- Embedding of `KeyRotator.get_next` as one atomic transition: raise on an empty pool;
if every key is failed, clear the failed set and rotate over the full pool;
otherwise rotate round-robin over the non-failed subset. -/
def KeyRotator.get_next (s : KeyRotatorState) :
    Except String (String × KeyRotatorState) :=
  if s.keys = [] then Except.error "No API keys configured"
  else
    let avail0 := s.keys.filter (fun k => !(s.failed_keys.contains k))
    let failed := if avail0 = [] then [] else s.failed_keys
    let avail := if avail0 = [] then s.keys else avail0
    let i := s.index % avail.length
    Except.ok (avail.getD i "", { s with failed_keys := failed, index := i + 1 })

/-- Embedding of `KeyRotator.mark_failed`: add the key to the failed set. -/
def KeyRotator.mark_failed (s : KeyRotatorState) (key : String) :
    KeyRotatorState :=
  if s.failed_keys.contains key then s
  else { s with failed_keys := s.failed_keys ++ [key] }

/-! ### Sentiment ensemble: `pipeline/tasks/sentiment_analysis.py` with
`pipeline/llm/gemini_client.py` and `pipeline/llm/openrouter_client.py`

The FinBERT classifier and the provider HTTP calls are external collaborators;
their outputs enter as parameters. `Option LlmResult` stands for the outcome
of the guarded provider API-call-and-JSON-parse block: `some r` when it
produced a parsed dict, `none` when anything in that block raised. The fields
of a parsed dict are optional, matching `dict.get` with defaults. -/

/-- Result dict of `FinBERTAnalyzer.analyze`: always has score and
confidence (a load failure already degraded to the 0.0 stub inside it). -/
structure FinbertResult where
  score : ℚ
  confidence : ℚ
deriving DecidableEq, Repr

/-- The JSON dict parsed from an LLM response; each field may be missing. -/
structure LlmResult where
  sentiment_score : Option ℚ
  confidence : Option ℚ
  explanation : Option String
  impact_timeline : Option String
deriving DecidableEq, Repr

/-- The placeholder/fallback dicts built by the provider clients: score 0.0,
confidence 0.0, the given explanation, timeline "unknown". -/
def providerStubResponse (msg : String) : LlmResult :=
  { sentiment_score := some 0, confidence := some 0,
    explanation := some msg, impact_timeline := some "unknown" }

/-- Embedding of `GeminiClient.analyze_sentiment`: placeholder when no keys are
configured; the parsed dict when the API call succeeds; the fallback dict
(score 0.0) when the API call raises — it never propagates the error. -/
def gemini_analyze_sentiment (api_keys : List String)
    (outcome : Option LlmResult) (err : String) : LlmResult :=
  if api_keys.length = 0 then
    providerStubResponse "No Gemini API keys configured"
  else
    match outcome with
    | some r => r
    | none => providerStubResponse ("Analysis failed: " ++ err)

/-- Embedding of `OpenRouterClient.analyze_sentiment`: same structure as the Gemini
client. -/
def openrouter_analyze_sentiment (api_keys : List String)
    (outcome : Option LlmResult) (err : String) : LlmResult :=
  if api_keys.length = 0 then
    providerStubResponse "No OpenRouter API keys configured"
  else
    match outcome with
    | some r => r
    | none => providerStubResponse ("Analysis failed: " ++ err)

/-- The combination rule of `analyze_article` (the if/elif chain over
`llm_score` and `finbert_score`), returning (ensemble score, confidence);
`llm_confidence` is `llm_result.get("confidence", 0.0)`. -/
def ensemble_combine (finbert_score : Option ℚ) (finbert_confidence : ℚ)
    (llm_score : Option ℚ) (llm_confidence : ℚ) : ℚ × ℚ :=
  match llm_score, finbert_score with
  | some ls, some fs => (4/10 * fs + 6/10 * ls, (finbert_confidence + llm_confidence) / 2)
  | none, some fs => (fs, finbert_confidence)
  | some ls, none => (ls, llm_confidence)
  | none, none => (0, 0)

/-- The record `analyze_article` persists into `sentiment_analyses`. -/
structure SentimentRecord where
  sentiment_score : ℚ
  confidence : ℚ
  explanation : String
  impact_timeline : String
  finbert_score : ℚ
  llm_score : Option ℚ
  llm_provider : Option String
deriving DecidableEq, Repr

/-- The ensemble portion of `analyze_article` (after the article text was
fetched): run FinBERT, attempt Gemini then OpenRouter inside try/except
(`…Throws` = the provider branch raised before returning, caught by the
task), combine, and build the persisted record. -/
def analyze_article_record (finbert : FinbertResult)
    (gemini_keys : List String) (geminiThrows : Bool)
    (geminiOutcome : Option LlmResult) (geminiErr : String)
    (openrouter_keys : List String) (openrouterThrows : Bool)
    (openrouterOutcome : Option LlmResult) (openrouterErr : String) :
    SentimentRecord :=
  let step1 : Option (LlmResult × String) :=
    if gemini_keys = [] ∨ geminiThrows then none
    else some (gemini_analyze_sentiment gemini_keys geminiOutcome geminiErr, "gemini")
  let step2 : Option (LlmResult × String) :=
    match step1 with
    | some r => some r
    | none =>
      if openrouter_keys = [] ∨ openrouterThrows then none
      else some (openrouter_analyze_sentiment openrouter_keys openrouterOutcome
          openrouterErr, "openrouter")
  let llm_score : Option ℚ :=
    match step2 with
    | some (r, _) => some (r.sentiment_score.getD 0)
    | none => none
  let llm_confidence : ℚ :=
    match step2 with
    | some (r, _) => r.confidence.getD 0
    | none => 0
  let combined := ensemble_combine (some finbert.score) finbert.confidence
    llm_score llm_confidence
  { sentiment_score := combined.1
    confidence := combined.2
    explanation :=
      match step2 with
      | some (r, _) => r.explanation.getD "FinBERT analysis"
      | none => "FinBERT analysis"
    impact_timeline :=
      match step2 with
      | some (r, _) => r.impact_timeline.getD "unknown"
      | none => "unknown"
    finbert_score := finbert.score
    llm_score := llm_score
    llm_provider := step2.map Prod.snd }

/-! ### Alpha metrics: `pipeline/tasks/alpha_metrics.py` with
`pipeline/alpha/expectation_gap.py`, `narrative_velocity.py`,
`divergence.py`

The database queries of `compute_stock_alpha` enter as an explicit snapshot
of what they return for the stock being processed. -/

/-- Embedding of `_clamp(value)` with the default bounds ±9.9999. -/
def clamp (value : ℚ) : ℚ :=
  max (-(99999/10000)) (min (99999/10000) value)

/-- Embedding of `compute_expectation_gap` from `expectation_gap.py`. -/
def compute_expectation_gap (current_sentiment baseline_sentiment : ℚ) : ℚ :=
  current_sentiment - baseline_sentiment

/-- Embedding of `compute_narrative_velocity` from `narrative_velocity.py`. -/
def compute_narrative_velocity (news_share sentiment_magnitude : ℚ) : ℚ :=
  news_share * 5 * (1 + |sentiment_magnitude|)

/-- Embedding of `compute_divergence` from `divergence.py`. -/
def compute_divergence (sentiment price_change : ℚ) : ℚ :=
  sentiment - price_change

/-- Embedding of `_get_news_share`: distinct mentioning articles over all articles in the
window, 0.0 when there are no articles. -/
def get_news_share (stock_mentions total_articles : Nat) : ℚ :=
  if total_articles = 0 then 0 else (stock_mentions : ℚ) / total_articles

/-- Snapshot of the query results `compute_stock_alpha` sees for one stock:
the stock row, the 24h sentiment scores, the 7d average, the news-share
counts, and the (already failure-degraded) price change. -/
structure StockAlphaDb where
  stock_info : Option (String × String)
  recent_sentiments : List ℚ
  baseline_avg : Option ℚ
  stock_mentions : Nat
  total_articles : Nat
  price_change : ℚ

/-- One row of `alpha_metrics` as inserted by `compute_stock_alpha`. -/
structure AlphaRow where
  expectation_gap : ℚ
  narrative_velocity : ℚ
  divergence : ℚ
  composite_score : ℚ
  signal : String
  conviction : ℚ
  window_hours : Nat
deriving DecidableEq, Repr

/-- Embedding of `compute_stock_alpha`: returns the task status and the row inserted into
`alpha_metrics` (`none` when the task returns without inserting). -/
def compute_stock_alpha (db : StockAlphaDb) : String × Option AlphaRow :=
  match db.stock_info with
  | none => ("not_found", none)
  | some _ =>
    if db.recent_sentiments = [] then ("no_data", none)
    else
      let current_sentiment := db.recent_sentiments.sum / db.recent_sentiments.length
      let baseline_sentiment := db.baseline_avg.getD 0
      let expectation_gap := clamp (compute_expectation_gap current_sentiment
        baseline_sentiment)
      let news_share := get_news_share db.stock_mentions db.total_articles
      let narrative_velocity := clamp (compute_narrative_velocity news_share
        |current_sentiment|)
      let divergence := clamp (compute_divergence current_sentiment
        db.price_change)
      let composite := compute_composite expectation_gap narrative_velocity
        divergence
      ("success", some
        { expectation_gap := expectation_gap
          narrative_velocity := narrative_velocity
          divergence := divergence
          composite_score := clamp composite.composite_score
          signal := composite.signal
          conviction := composite.conviction
          window_hours := 24 })

end AlphaStream

namespace AlphaStream

/-- Packing a small scalar value into a `Char` keeps its numeric value. -/
theorem toNat_ofNat_of_lt {n : Nat} (h : n < 55296) : (Char.ofNat n).toNat = n := by
  rw [Char.ofNat, dif_pos (Or.inl h)]
  rfl

/-- Characters at or above code 65 are not Python whitespace. -/
theorem pyIsSpace_eq_false_of_ge (c : Char) (h : 65 ≤ c.toNat) :
    pyIsSpace c = false := by
  simp only [pyIsSpace, Bool.or_eq_false_iff, beq_eq_false_iff_ne, ne_eq]
  omega

/-- Lowercasing does not change whether a character is whitespace. -/
theorem pyIsSpace_toLower (c : Char) :
    pyIsSpace (Char.toLower c) = pyIsSpace c := by
  by_cases h : c.toNat ≥ 65 ∧ c.toNat ≤ 90
  · have h1 : Char.toLower c = Char.ofNat (c.toNat + 32) := by
      simp only [Char.toLower]
      rw [if_pos h]
    rw [h1, pyIsSpace_eq_false_of_ge _ (by rw [toNat_ofNat_of_lt (by omega)]; omega),
      pyIsSpace_eq_false_of_ge _ h.1]
  · have h1 : Char.toLower c = c := by
      simp only [Char.toLower]
      rw [if_neg h]
    rw [h1]

/-- Lowercasing a character is idempotent. -/
theorem toLower_toLower (c : Char) :
    Char.toLower (Char.toLower c) = Char.toLower c := by
  by_cases h : c.toNat ≥ 65 ∧ c.toNat ≤ 90
  · have h1 : Char.toLower c = Char.ofNat (c.toNat + 32) := by
      simp only [Char.toLower]
      rw [if_pos h]
    have h2 : (Char.ofNat (c.toNat + 32)).toNat = c.toNat + 32 :=
      toNat_ofNat_of_lt (by omega)
    rw [h1]
    simp only [Char.toLower]
    rw [if_neg (by rw [h2]; omega)]
  · have h1 : Char.toLower c = c := by
      simp only [Char.toLower]
      rw [if_neg h]
    rw [h1]
    exact h1

theorem pyIsSpace_comp_toLower : (pyIsSpace ∘ Char.toLower) = pyIsSpace :=
  funext pyIsSpace_toLower

/-- Dropping leading whitespace leaves a list alone whose head does not satisfy the predicate. -/
theorem dropWhile_eq_self_of_head (l : List Char)
    (h : match l.head? with | some a => pyIsSpace a = false | none => True) :
    List.dropWhile pyIsSpace l = l := by
  cases l with
  | nil => rfl
  | cons a as =>
    simp only [List.head?_cons] at h
    rw [List.dropWhile_cons_of_neg]
    simp [h]

/-- Re-stripping the front of a both-ends-stripped list changes nothing. -/
theorem dropWhile_rdropWhile_dropWhile (l : List Char) :
    List.dropWhile pyIsSpace (List.rdropWhile pyIsSpace (List.dropWhile pyIsSpace l))
      = List.rdropWhile pyIsSpace (List.dropWhile pyIsSpace l) := by
  apply dropWhile_eq_self_of_head
  cases hrd : List.rdropWhile pyIsSpace (List.dropWhile pyIsSpace l) with
  | nil => simp
  | cons a as =>
    have hpre := List.rdropWhile_prefix pyIsSpace (List.dropWhile pyIsSpace l)
    rw [hrd] at hpre
    obtain ⟨t, ht⟩ := hpre
    have hfst := List.head?_dropWhile_not pyIsSpace l
    rw [← ht] at hfst
    simpa using hfst

/-- Python `strip` is idempotent. -/
theorem stripData_idem (l : List Char) : stripData (stripData l) = stripData l := by
  unfold stripData
  rw [dropWhile_rdropWhile_dropWhile, List.rdropWhile_idempotent]

/-- Dropping trailing whitespace commutes with lowercasing. -/
theorem rdropWhile_map_toLower (l : List Char) :
    List.rdropWhile pyIsSpace (l.map Char.toLower)
      = (List.rdropWhile pyIsSpace l).map Char.toLower := by
  unfold List.rdropWhile
  rw [← List.map_reverse, List.dropWhile_map, pyIsSpace_comp_toLower,
    ← List.map_reverse]

/-- Python `strip` commutes with lowercasing. -/
theorem stripData_map_toLower (l : List Char) :
    stripData (l.map Char.toLower) = (stripData l).map Char.toLower := by
  unfold stripData
  rw [List.dropWhile_map, pyIsSpace_comp_toLower, rdropWhile_map_toLower]

/-- Lowercasing a character list is idempotent. -/
theorem map_toLower_idem (l : List Char) :
    (l.map Char.toLower).map Char.toLower = l.map Char.toLower := by
  rw [List.map_map]
  congr 1
  funext c
  simp only [Function.comp_apply]
  exact toLower_toLower c

/-- C9: the content hash is invariant under lowercasing and stripping — for
every text `s` and every digest function, `compute_content_hash s` equals
`compute_content_hash` of the lowercased stripped form of `s`; in particular
the hashes of "Hello World", "hello world" and "  hello world  " coincide. -/
theorem content_hash_normalization_invariant (md5hex : String → String)
    (s : String) :
    compute_content_hash md5hex s
      = compute_content_hash md5hex (pyLower (pyStrip s))
    ∧ compute_content_hash md5hex "Hello World"
      = compute_content_hash md5hex "hello world"
    ∧ compute_content_hash md5hex "  hello world  "
      = compute_content_hash md5hex "hello world" := by
  refine ⟨?_, congrArg md5hex (by decide), congrArg md5hex (by decide)⟩
  apply congrArg md5hex
  apply congrArg String.mk
  show (stripData s.data).map Char.toLower
      = (stripData ((stripData s.data).map Char.toLower)).map Char.toLower
  rw [stripData_map_toLower, stripData_idem, map_toLower_idem]

end AlphaStream

namespace AlphaStream

/-- If some pair of the map has the probe contained in its alias, the
substring scan of `resolve` finds a match (possibly at an earlier pair). -/
theorem findSubstrMatch_isSome_of_mem (m : List (String × String)) (el : String)
    (h : ∃ p ∈ m, isInfixB el.data p.1.data = true) :
    (findSubstrMatch m el).isSome := by
  induction m with
  | nil =>
    obtain ⟨p, hp, _⟩ := h
    exact absurd hp (List.not_mem_nil p)
  | cons hd rest ih =>
    obtain ⟨ha, ht⟩ := hd
    obtain ⟨p, hp, hinf⟩ := h
    simp only [findSubstrMatch]
    by_cases hc : (isInfixB ha.data el.data || isInfixB el.data ha.data) = true
    · rw [if_pos hc]
      rfl
    · rw [if_neg hc]
      apply ih
      rcases List.mem_cons.mp hp with h1 | h2
      · exfalso
        apply hc
        rw [h1] at hinf
        simp [hinf]
      · exact ⟨p, h2, hinf⟩

/-- C1: the signal is determined from the composite score by strict comparisons
evaluated in order (strong_buy / buy / hold / sell / strong_sell); a composite
exactly equal to a threshold falls into the lower bucket (0.5 gives "buy",
-0.2 gives "sell"), and all-zero inputs give signal "hold" with conviction 0. -/
theorem composite_signal_thresholds (eg nv dv : ℚ) :
    ((compute_composite eg nv dv).signal =
      if (compute_composite eg nv dv).composite_score > 5/10 then "strong_buy"
      else if (compute_composite eg nv dv).composite_score > 2/10 then "buy"
      else if (compute_composite eg nv dv).composite_score > -(2/10) then "hold"
      else if (compute_composite eg nv dv).composite_score > -(5/10) then "sell"
      else "strong_sell")
    ∧ ((compute_composite eg nv dv).composite_score = 5/10 →
        (compute_composite eg nv dv).signal = "buy")
    ∧ ((compute_composite eg nv dv).composite_score = -(2/10) →
        (compute_composite eg nv dv).signal = "sell")
    ∧ (compute_composite 0 0 0).signal = "hold"
    ∧ (compute_composite 0 0 0).conviction = 0 := by
  refine ⟨rfl, ?_, ?_,
    by norm_num [compute_composite, STRONG_BUY_THRESHOLD, BUY_THRESHOLD,
      SELL_THRESHOLD, STRONG_SELL_THRESHOLD],
    by norm_num [compute_composite]⟩
  · intro h
    simp only [compute_composite, STRONG_BUY_THRESHOLD, BUY_THRESHOLD,
      SELL_THRESHOLD, STRONG_SELL_THRESHOLD] at h ⊢
    rw [h]
    norm_num
  · intro h
    simp only [compute_composite, STRONG_BUY_THRESHOLD, BUY_THRESHOLD,
      SELL_THRESHOLD, STRONG_SELL_THRESHOLD] at h ⊢
    rw [h]
    norm_num

/-- Witness for C1 at concrete boundary inputs: inputs (0.5,0.5,0.5) have
composite exactly 0.5 and signal "buy"; inputs (-0.2,-0.2,-0.2) have composite
exactly -0.2 and signal "sell". -/
theorem composite_signal_thresholds_witness :
    (compute_composite (5/10) (5/10) (5/10)).signal = "buy"
    ∧ (compute_composite (-(2/10)) (-(2/10)) (-(2/10))).signal = "sell" :=
  ⟨(composite_signal_thresholds (5/10) (5/10) (5/10)).2.1
      (by norm_num [compute_composite]),
   (composite_signal_thresholds (-(2/10)) (-(2/10)) (-(2/10))).2.2.1
      (by norm_num [compute_composite])⟩

/-- C4: weight conservation — `compute_composite(1,1,1)` has composite score
exactly 1 (weights 0.45 + 0.30 + 0.25 = 1) and conviction exactly 1. -/
theorem composite_weight_conservation :
    (compute_composite 1 1 1).composite_score = 1
    ∧ (compute_composite 1 1 1).conviction = 1 := by
  constructor <;> norm_num [compute_composite]

/-- C5: `resolve_all` preserves input order and length, pairing each entity
with `resolve` of it; `resolve` tries the exact case-insensitive alias lookup
before any substring matching; and on the given probes it returns RELIANCE /
RELIANCE / none. -/
theorem resolve_all_and_resolve_spec :
    (∀ entities : List String, (resolve_all entities).length = entities.length)
    ∧ (∀ (entities : List String) (i : Nat) (e : String),
        entities[i]? = some e → (resolve_all entities)[i]? = some (e, resolve e))
    ∧ (∀ e : String, (alias_to_ticker.lookup (pyLower e)).isSome →
        resolve e = alias_to_ticker.lookup (pyLower e))
    ∧ resolve "Reliance Industries" = some "RELIANCE"
    ∧ resolve "reliance industries" = some "RELIANCE"
    ∧ resolve "Completely Unknown Inc" = none := by
  refine ⟨fun es => List.length_map es _, fun es i e h => ?_, fun e h => ?_,
    by decide, by decide, by decide⟩
  · simp [resolve_all, List.getElem?_map, h]
  · unfold resolve
    cases hl : List.lookup (pyLower e) alias_to_ticker with
    | none => rw [hl] at h; simp at h
    | some t => simp

/-- Witness for C5: a concrete one-element list and a concrete entity that hits
the exact-lookup path. -/
theorem resolve_all_and_resolve_spec_witness :
    (resolve_all ["Reliance Industries"])[0]? =
      some ("Reliance Industries", resolve "Reliance Industries")
    ∧ resolve "TCS" = alias_to_ticker.lookup (pyLower "TCS") :=
  ⟨(resolve_all_and_resolve_spec.2.1 ["Reliance Industries"] 0
      "Reliance Industries" (by decide)),
   (resolve_all_and_resolve_spec.2.2.1 "TCS" (by decide))⟩

/-- C10: `resolve` applied to the empty string returns "RELIANCE" (ticker of
the first alias in insertion order), because the case-folded empty candidate is
a substring of every alias; more generally any entity whose case-folded form is
a substring of some alias in the map resolves to a ticker instead of `none`. -/
theorem resolve_empty_and_substring_fallback :
    resolve "" = some "RELIANCE"
    ∧ ∀ e : String,
        (∃ p ∈ alias_to_ticker, isInfixB (pyLower e).data p.1.data = true) →
        (resolve e).isSome := by
  refine ⟨by decide, fun e h => ?_⟩
  unfold resolve
  cases hl : List.lookup (pyLower e) alias_to_ticker with
  | some t => rfl
  | none => exact findSubstrMatch_isSome_of_mem alias_to_ticker (pyLower e) h

/-- Witness for C10: "Reliance" case-folds to a substring of the alias
"reliance", hence resolves to a ticker. -/
theorem resolve_empty_and_substring_fallback_witness :
    (resolve "Reliance").isSome :=
  resolve_empty_and_substring_fallback.2 "Reliance" (by decide)

/-- C7: from keys [a,b,c] with no failures, four successive `get_next` calls
return a, b, c, then wrap to a; and from any state in which every configured
key is failed, `get_next` clears the failed set in the same transition and
returns a key from the full pool instead of raising. -/
theorem key_rotator_round_robin_and_reset :
    (KeyRotator.get_next (KeyRotator.init ["a", "b", "c"])
        = Except.ok ("a", ⟨["a", "b", "c"], [], 1⟩)
      ∧ KeyRotator.get_next ⟨["a", "b", "c"], [], 1⟩
        = Except.ok ("b", ⟨["a", "b", "c"], [], 2⟩)
      ∧ KeyRotator.get_next ⟨["a", "b", "c"], [], 2⟩
        = Except.ok ("c", ⟨["a", "b", "c"], [], 3⟩)
      ∧ KeyRotator.get_next ⟨["a", "b", "c"], [], 3⟩
        = Except.ok ("a", ⟨["a", "b", "c"], [], 1⟩))
    ∧ (∀ s : KeyRotatorState, s.keys ≠ [] →
        (∀ k ∈ s.keys, k ∈ s.failed_keys) →
        ∃ key s2, KeyRotator.get_next s = Except.ok (key, s2)
          ∧ key ∈ s.keys ∧ s2.failed_keys = []) := by
  refine ⟨⟨rfl, rfl, rfl, rfl⟩, fun s hne hall => ?_⟩
  have h0 : s.keys.filter (fun k => !(s.failed_keys.contains k)) = [] := by
    rw [List.filter_eq_nil_iff]
    intro a ha
    simp [List.contains, List.elem_iff, hall a ha]
  have hlen : 0 < s.keys.length := List.length_pos.mpr hne
  refine ⟨s.keys.getD (s.index % s.keys.length) "",
    { s with failed_keys := [], index := s.index % s.keys.length + 1 }, ?_, ?_, rfl⟩
  · simp only [KeyRotator.get_next]
    rw [if_neg hne, h0]
    simp
  · have hi : s.index % s.keys.length < s.keys.length := Nat.mod_lt _ hlen
    rw [List.getD_eq_getElem?_getD, List.getElem?_eq_getElem hi]
    exact List.getElem_mem hi

/-- Witness for C7: a one-key rotator whose only key is failed still hands
the key back and resets the failed set. -/
theorem key_rotator_round_robin_and_reset_witness :
    ∃ key s2,
      KeyRotator.get_next ⟨["a"], ["a"], 0⟩ = Except.ok (key, s2)
        ∧ key ∈ (⟨["a"], ["a"], 0⟩ : KeyRotatorState).keys
        ∧ s2.failed_keys = [] :=
  key_rotator_round_robin_and_reset.2 ⟨["a"], ["a"], 0⟩ (by decide) (by decide)

/-- C8: with `max_rpm = 60` (a one-second interval), for two back-to-back
`wait` calls the timestamp recorded by the second call is at least one
second after the timestamp recorded by the first call, because the blocking acquire sleeps out
the remaining interval before re-reading the clock. The hypotheses state that
`time.sleep` suspends at least as long as requested on the monotonic clock. -/
theorem rate_limiter_spacing (t1 t2 u1 u2 : ℚ)
    (_hclock1 : t2 ≥ t1 + waitSleep (RateLimiter.init 60) t1)
    (h2 : u2 ≥ u1 + waitSleep (RateLimiter.wait (RateLimiter.init 60) t2) u1) :
    (RateLimiter.wait (RateLimiter.wait (RateLimiter.init 60) t2) u2).last_request_time
      ≥ (RateLimiter.wait (RateLimiter.init 60) t2).last_request_time + 1 := by
  simp only [RateLimiter.wait, RateLimiter.init, waitSleep] at h2 ⊢
  rw [show (60 : ℚ) / 60 = 1 by norm_num] at h2
  split_ifs at h2 <;> linarith

/-- Witness for C8: first call enters at time 0 and records 1; the second
enters at 1, sleeps out the second interval and records 2 ≥ 1 + 1. -/
theorem rate_limiter_spacing_witness :
    (RateLimiter.wait (RateLimiter.wait (RateLimiter.init 60) 1) 2).last_request_time
      ≥ (RateLimiter.wait (RateLimiter.init 60) 1).last_request_time + 1 :=
  rate_limiter_spacing 0 1 1 2
    (by norm_num [waitSleep, RateLimiter.init])
    (by norm_num [waitSleep, RateLimiter.init, RateLimiter.wait])

/-- C3: the ensemble combination rule — both scores: 0.4·classifier +
0.6·LLM with the mean of the confidences; exactly one score: that component
unchanged; neither: 0.0 and 0.0. -/
theorem ensemble_combination_rule (fc lc : ℚ) :
    (∀ fs ls : ℚ, ensemble_combine (some fs) fc (some ls) lc
        = (4/10 * fs + 6/10 * ls, (fc + lc) / 2))
    ∧ (∀ fs : ℚ, ensemble_combine (some fs) fc none lc = (fs, fc))
    ∧ (∀ ls : ℚ, ensemble_combine none fc (some ls) lc = (ls, lc))
    ∧ ensemble_combine none fc none lc = (0, 0) :=
  ⟨fun _ _ => rfl, fun _ => rfl, fun _ => rfl, rfl⟩

/-- Counterexample to C2: classifier returns (score 1, confidence 0.8),
Gemini has one key configured and its underlying API call fails. The client
swallows the failure and returns a fallback dict with score 0.0, so the
persisted record is 0.4·1 + 0.6·0 = 0.4 with confidence (0.8+0)/2 = 0.4 —
not the classifier-only values (1, 0.8) the claim asserts. -/
theorem analyze_article_llm_failure_counterexample :
    (analyze_article_record ⟨1, 8/10⟩ ["k"] false none "boom"
        [] false none "x").sentiment_score = 4/10
    ∧ (analyze_article_record ⟨1, 8/10⟩ ["k"] false none "boom"
        [] false none "x").confidence = 4/10
    ∧ (4 : ℚ)/10 ≠ 1
    ∧ (4 : ℚ)/10 ≠ 8/10 := by
  refine ⟨?_, ?_, by norm_num, by norm_num⟩ <;>
    norm_num [analyze_article_record, gemini_analyze_sentiment,
      providerStubResponse, ensemble_combine]

/-- C2 as amended: the record is classifier-only exactly when no provider
branch produced a dict — no provider has keys, or every entered provider
branch raised (which the task catches; never fatal). When Gemini has keys and
its API call fails, the client returns a fallback dict with score 0.0 and
confidence 0.0 that is ensembled: the stored score becomes 0.4× the
classifier score and the stored confidence half the classifier confidence. -/
theorem analyze_article_llm_fallback (fb : FinbertResult)
    (gk ork : List String) (gT orT : Bool)
    (gOut orOut : Option LlmResult) (ge ore : String) :
    ((gk = [] ∧ ork = []) →
      (analyze_article_record fb gk gT gOut ge ork orT orOut ore).sentiment_score
          = fb.score
      ∧ (analyze_article_record fb gk gT gOut ge ork orT orOut ore).confidence
          = fb.confidence
      ∧ (analyze_article_record fb gk gT gOut ge ork orT orOut ore).llm_provider
          = none)
    ∧ ((gT = true ∧ orT = true) →
      (analyze_article_record fb gk gT gOut ge ork orT orOut ore).sentiment_score
          = fb.score
      ∧ (analyze_article_record fb gk gT gOut ge ork orT orOut ore).confidence
          = fb.confidence
      ∧ (analyze_article_record fb gk gT gOut ge ork orT orOut ore).llm_provider
          = none)
    ∧ ((gk ≠ [] ∧ gT = false ∧ gOut = none) →
      (analyze_article_record fb gk gT gOut ge ork orT orOut ore).sentiment_score
          = 4/10 * fb.score
      ∧ (analyze_article_record fb gk gT gOut ge ork orT orOut ore).confidence
          = fb.confidence / 2
      ∧ (analyze_article_record fb gk gT gOut ge ork orT orOut ore).llm_score
          = some 0
      ∧ (analyze_article_record fb gk gT gOut ge ork orT orOut ore).llm_provider
          = some "gemini") := by
  refine ⟨fun h => ?_, fun h => ?_, fun h => ?_⟩
  · obtain ⟨h1, h2⟩ := h
    subst h1
    subst h2
    simp [analyze_article_record, ensemble_combine]
  · obtain ⟨h1, h2⟩ := h
    subst h1
    subst h2
    simp [analyze_article_record, ensemble_combine]
  · obtain ⟨h1, h2, h3⟩ := h
    subst h2
    subst h3
    simp [analyze_article_record, gemini_analyze_sentiment,
      providerStubResponse, ensemble_combine, h1]

/-- Witness for C2 (amended): with no keys anywhere the record carries the
classifier values unchanged; with a Gemini key and a failing API call the
stored score is 0.4× the classifier score. -/
theorem analyze_article_llm_fallback_witness :
    ((analyze_article_record ⟨1/2, 1⟩ [] false none ""
        [] false none "").sentiment_score = (1 : ℚ)/2
      ∧ (analyze_article_record ⟨1/2, 1⟩ [] false none ""
        [] false none "").confidence = 1
      ∧ (analyze_article_record ⟨1/2, 1⟩ [] false none ""
        [] false none "").llm_provider = none)
    ∧ (analyze_article_record ⟨1/2, 1⟩ ["k"] false none ""
        [] false none "").sentiment_score = 4/10 * (1/2) :=
  ⟨(analyze_article_llm_fallback ⟨1/2, 1⟩ [] [] false false none none "" "").1
      ⟨rfl, rfl⟩,
   ((analyze_article_llm_fallback ⟨1/2, 1⟩ ["k"] [] false false none none "" "").2.2
      ⟨by decide, rfl, rfl⟩).1⟩

/-- C6: with a known stock but zero sentiment records in the window the task
returns the no-data status and inserts no row; with sentiment records present
a row is always inserted, and a zero news share makes the narrative
velocity of that row literally 0 — so a missing row is distinguishable from a zero row. -/
theorem alpha_no_data_vs_zero_row (db : StockAlphaDb) :
    (db.stock_info.isSome → db.recent_sentiments = [] →
      compute_stock_alpha db = ("no_data", none))
    ∧ (db.stock_info.isSome → db.recent_sentiments ≠ [] →
      ∃ row : AlphaRow, (compute_stock_alpha db).1 = "success"
        ∧ (compute_stock_alpha db).2 = some row
        ∧ (get_news_share db.stock_mentions db.total_articles = 0 →
            row.narrative_velocity = 0)) := by
  cases hsi : db.stock_info with
  | none =>
    constructor <;> · intro h; simp at h
  | some ti =>
    constructor
    · intro _ hempty
      simp only [compute_stock_alpha, hsi]
      rw [if_pos hempty]
    · intro _ hne
      simp only [compute_stock_alpha, hsi]
      rw [if_neg hne]
      refine ⟨_, rfl, rfl, ?_⟩
      intro hshare
      show clamp (compute_narrative_velocity
        (get_news_share db.stock_mentions db.total_articles) _) = 0
      rw [hshare]
      have hz : ∀ m : ℚ, compute_narrative_velocity 0 m = 0 := by
        intro m
        simp [compute_narrative_velocity]
      rw [hz]
      unfold clamp
      rw [min_eq_right (by norm_num), max_eq_right (by norm_num)]

/-- Witness for C6: a stock with no 24h sentiment yields ("no_data", no row);
one with a single sentiment record but zero mentions yields a written row. -/
theorem alpha_no_data_vs_zero_row_witness :
    compute_stock_alpha ⟨some ("RELIANCE", "Energy"), [], some 0, 0, 5, 0⟩
        = ("no_data", none)
    ∧ ∃ row : AlphaRow,
        (compute_stock_alpha ⟨some ("RELIANCE", "Energy"), [1], some 0, 0, 5, 0⟩).1
            = "success"
        ∧ (compute_stock_alpha ⟨some ("RELIANCE", "Energy"), [1], some 0, 0, 5, 0⟩).2
            = some row
        ∧ (get_news_share 0 5 = 0 → row.narrative_velocity = 0) :=
  ⟨(alpha_no_data_vs_zero_row ⟨some ("RELIANCE", "Energy"), [], some 0, 0, 5, 0⟩).1
      rfl rfl,
   (alpha_no_data_vs_zero_row ⟨some ("RELIANCE", "Energy"), [1], some 0, 0, 5, 0⟩).2
      rfl (by decide)⟩

end AlphaStream
